import Mathlib

/-!
# SafeChat client: notification queue, feed store and client-side validation

A shallow embedding of the decision logic of the SafeChat React client
(`App.jsx`, `HomePage.jsx`, `ChatPanel.jsx`, `AuthPage.jsx`, `ProfilePage.jsx`).

* React state cells (`useState`) become record fields; a handler becomes a
  function from the state before to the state after, paired with the list of
  observable effects (API calls, alerts, console errors) it performed.
* The outcome of an awaited network call is an argument of the handler: the
  handler only looks at it on the paths where the call was issued.
* `Date.now()` and the scheduler time at which a handler runs are arguments,
  both natural numbers of milliseconds.
* JavaScript strings are `String`; `!s` on a string is `s == ""`.
* A `setInterval` timer is modelled as firing at every multiple of its period after
  registration until it is cleared.
-/

namespace SafeChat

/-! ## JavaScript string helpers -/

/-- ECMAScript WhiteSpace and LineTerminator code points: the characters that
`String.prototype.trim` strips from both ends. -/
def isJsWhiteSpace (c : Char) : Bool :=
  c.toNat == 0x09 || c.toNat == 0x0A || c.toNat == 0x0B || c.toNat == 0x0C ||
  c.toNat == 0x0D || c.toNat == 0x20 || c.toNat == 0xA0 || c.toNat == 0x1680 ||
  (0x2000 ≤ c.toNat && c.toNat ≤ 0x200A) || c.toNat == 0x2028 || c.toNat == 0x2029 ||
  c.toNat == 0x202F || c.toNat == 0x205F || c.toNat == 0x3000 || c.toNat == 0xFEFF

/-- Strip white space from both ends of a list of characters. -/
def trimChars (cs : List Char) : List Char :=
  ((cs.dropWhile isJsWhiteSpace).reverse.dropWhile isJsWhiteSpace).reverse

/-- JavaScript `s.trim()`. -/
def jsTrim (s : String) : String := String.mk (trimChars s.data)

/-- JavaScript `!s` for a string `s`: only the empty string is falsy. -/
def jsNot (s : String) : Bool := s == ""

/-- Interpolation of a possibly absent value inside a template literal. -/
def jsInterp : Option String → String
  | none => "undefined"
  | some s => s

/-! ## App.jsx: session state and the notification queue -/

/-- An entry of the bell-icon list, as built by `showNotification` and `handleLike`. -/
structure Notification where
  id : Nat
  type : String
  text : String
deriving DecidableEq, Repr

/-- State cells of `App`, plus the due times of the pending one-shot timers
registered by `setTimeout` (each of them runs `setNotification(null)`). -/
structure AppState where
  currentUser : Option String
  notification : Option String
  currentPage : String
  notifications : List Notification
  timers : List Nat
deriving DecidableEq, Repr

/-- Initial values of the `useState` cells of `App`. -/
def AppState.initial : AppState :=
  { currentUser := none, notification := none, currentPage := "home",
    notifications := [], timers := [] }

/-- `showNotification(message)` run at scheduler time `t` while `Date.now()` reads `now`. -/
def showNotification (t now : Nat) (message : String) (s : AppState) : AppState :=
  { s with
    notification := some message
    timers := s.timers ++ [t + 4000]
    notifications := { id := now, type := "warning", text := message } :: s.notifications }

/-- Run the callbacks of all timers due at or before `t`: each one is
`setNotification(null)`, whatever the pop-up currently shows. -/
def fireTimers (t : Nat) (s : AppState) : AppState :=
  if s.timers.any (fun due => decide (due ≤ t)) then
    { s with notification := none, timers := s.timers.filter (fun due => !decide (due ≤ t)) }
  else s

/-- `handleLogin(username)`. -/
def handleLogin (username : Option String) (s : AppState) : AppState :=
  { s with currentUser := username, currentPage := "home" }

/-- `handleLogout()`. -/
def handleLogout (s : AppState) : AppState := { s with currentUser := none }

/-- `navigateToHome()`. -/
def navigateToHome (s : AppState) : AppState := { s with currentPage := "home" }

/-- `navigateToProfile()`. -/
def navigateToProfile (s : AppState) : AppState := { s with currentPage := "profile" }

/-- The `onClose` handler of the pop-up: `setNotification(null)`. -/
def closePopUp (s : AppState) : AppState := { s with notification := none }

/-- `handleLike(postId, postUser)` of `HomePage`, acting on the list owned by `App`
through `setNotifications`; `user` is the logged-in user. -/
def handleLike (user : String) (now : Nat) (_postId : Nat) (postUser : String)
    (s : AppState) : AppState :=
  { s with
    notifications :=
      { id := now, type := "like", text := user ++ " liked " ++ postUser ++ "\x27s post." }
        :: s.notifications }

/-- Replay a list of publishes `(t, now, message)`, given in scheduler order: before
each publish the timers already due run, then `showNotification` runs. -/
def runPublishes : List (Nat × Nat × String) → AppState → AppState
  | [], s => s
  | (t, now, m) :: rest, s => runPublishes rest (showNotification t now m (fireTimers t s))

/-- The pop-up text on screen at time `t` after the publishes `pubs` (all at or before `t`). -/
def popUpAt (pubs : List (Nat × Nat × String)) (t : Nat) : Option String :=
  (fireTimers t (runPublishes pubs AppState.initial)).notification

/-- An insertion into the bell-icon list: a publish or a like. -/
inductive Insertion where
  | publish (t now : Nat) (message : String)
  | like (user : String) (now : Nat) (postId : Nat) (postUser : String)
deriving DecidableEq, Repr

/-- Perform one insertion. -/
def Insertion.apply (s : AppState) : Insertion → AppState
  | .publish t now m => showNotification t now m s
  | .like user now postId postUser => handleLike user now postId postUser s

/-- Perform a sequence of insertions from the initial state, oldest first. -/
def runInsertions (ops : List Insertion) : AppState :=
  ops.foldl Insertion.apply AppState.initial

/-! ## Effects and network outcomes -/

/-- The HTTP calls the client can issue. -/
inductive ApiCall where
  | getPosts
  | createPost (user : String) (text : String) (parent_id : Option Nat)
  | approvePost (id : Nat)
  | blockPost (id : Nat)
  | deletePost (id : Nat)
  | getMessages (username : String)
  | sendMessage (senderUser : Option String) (receiverUser text : String)
  | login (username password : String)
  | signup (username email password : String)
  | getProfile (username : String)
  | uploadImage (username : String) (file : String)
  | updateProfile (username : String) (bio : Option String) (profile_image_url : Option String)
deriving DecidableEq, Repr

/-- Observable effects of a handler, in the order they happen. -/
inductive Effect where
  | call (c : ApiCall)
  | alert (msg : String)
  | consoleError (msg : String)
  | onLogin (username : Option String)
  | onNavigateHome
deriving DecidableEq, Repr

/-- Outcome of a collection fetch `fetch(..).then(res => res.json())`: the promise
rejects, or resolves to a JSON value that is or is not an array. -/
inductive Fetched (α : Type) where
  | rejected
  | notArray
  | array (items : List α)
deriving DecidableEq, Repr

/-- Outcome of a write call `fetch(..).then(res => res.json())`: the promise rejects,
or resolves to an object whose `notification` field may be absent. -/
inductive WriteResult where
  | rejected
  | body (notification : Option String)
deriving DecidableEq, Repr

/-- Outcome of a bare `fetch(..)` whose response is not read (approve, block, delete):
the promise resolves, whatever the HTTP status, or rejects. -/
inductive PlainResult where
  | rejected
  | resolved
deriving DecidableEq, Repr

/-! ## HomePage.jsx: feed store -/

/-- A comment of a fetched post. -/
structure Comment where
  id : Nat
  username : String
  text : String
  status : String
deriving DecidableEq, Repr

/-- A fetched post; `comments` is `none` when the field is not an array. -/
structure Post where
  id : Nat
  username : String
  text : String
  created_at : String
  status : String
  likes : Nat
  comments : Option (List Comment)
deriving DecidableEq, Repr

/-- State cells of `HomePage`. `commentTexts` is the object keyed by post id. -/
structure HomeState where
  posts : List Post
  newPostText : String
  selectedImage : Option String
  commentTexts : List (Nat × String)
  isChatOpen : Bool
  isNotificationsOpen : Bool
deriving DecidableEq, Repr

/-- Initial values of the `useState` cells of `HomePage`. -/
def HomeState.initial : HomeState :=
  { posts := [], newPostText := "", selectedImage := none, commentTexts := [],
    isChatOpen := false, isNotificationsOpen := false }

/-- The object spread update of `commentTexts` with the key `postId` set to `text`. -/
def setCommentText (postId : Nat) (text : String) (m : List (Nat × String)) :
    List (Nat × String) :=
  (postId, text) :: m.filter (fun kv => kv.1 != postId)

/-- `fetchPosts()` with the outcome of `api.getPosts()`. -/
def fetchPosts (r : Fetched Post) (h : HomeState) : HomeState × List Effect :=
  match r with
  | .array fetchedPosts => ({ h with posts := fetchedPosts }, [.call .getPosts])
  | .notArray => ({ h with posts := [] }, [.call .getPosts])
  | .rejected =>
    ({ h with posts := [] }, [.call .getPosts, .consoleError "Failed to fetch posts:"])

/-- The guarded call `if (response.notification) showNotification(response.notification)`. -/
def notifyIfPresent (t now : Nat) (notification : Option String) (a : AppState) : AppState :=
  match notification with
  | some msg => if jsNot msg then a else showNotification t now msg a
  | none => a

/-- `handleCreatePost()`: `resp` is the outcome of `api.createPost`, `refetch` the
outcome of the `fetchPosts()` it triggers; `t`, `now` are the scheduler time and clock
reading at which a notification, if any, is published. -/
def handleCreatePost (user : String) (t now : Nat) (resp : WriteResult)
    (refetch : Fetched Post) (h : HomeState) (a : AppState) :
    HomeState × AppState × List Effect :=
  if jsNot (jsTrim h.newPostText) then
    (h, a, [.alert "Please add some text to your post."])
  else
    match resp with
    | .body notification =>
      let r := fetchPosts refetch { h with newPostText := "", selectedImage := none }
      (r.1, notifyIfPresent t now notification a,
        .call (.createPost user h.newPostText none) :: r.2)
    | .rejected =>
      (h, showNotification t now "Error: Could not create post." a,
        [.call (.createPost user h.newPostText none)])

/-- `handleAddComment(postId, commentText)`. -/
def handleAddComment (user : String) (t now : Nat) (resp : WriteResult)
    (refetch : Fetched Post) (postId : Nat) (commentText : String)
    (h : HomeState) (a : AppState) : HomeState × AppState × List Effect :=
  if jsNot commentText || jsNot (jsTrim commentText) then (h, a, [])
  else
    match resp with
    | .body notification =>
      let r := fetchPosts refetch
        { h with commentTexts := setCommentText postId "" h.commentTexts }
      (r.1, notifyIfPresent t now notification a,
        .call (.createPost user commentText (some postId)) :: r.2)
    | .rejected =>
      (h, showNotification t now "Error: Could not post comment." a,
        [.call (.createPost user commentText (some postId))])

/-- `handleApprove(postId)`: no `try`, so a rejected call ends the handler there. -/
def handleApprove (r : PlainResult) (refetch : Fetched Post) (postId : Nat) (h : HomeState) :
    HomeState × List Effect :=
  match r with
  | .resolved =>
    let f := fetchPosts refetch h
    (f.1, .call (.approvePost postId) :: f.2)
  | .rejected => (h, [.call (.approvePost postId)])

/-- `handleBlock(postId)`: no `try`, so a rejected call ends the handler there. -/
def handleBlock (r : PlainResult) (refetch : Fetched Post) (postId : Nat) (h : HomeState) :
    HomeState × List Effect :=
  match r with
  | .resolved =>
    let f := fetchPosts refetch h
    (f.1, .call (.blockPost postId) :: f.2)
  | .rejected => (h, [.call (.blockPost postId)])

/-- `handleDelete(postId)` inside a `HomePage` rendered for `user`. -/
def handleDelete (_user : String) (t now : Nat) (r : PlainResult) (refetch : Fetched Post)
    (postId : Nat) (h : HomeState) (a : AppState) : HomeState × AppState × List Effect :=
  match r with
  | .resolved =>
    let f := fetchPosts refetch h
    (f.1, a, .call (.deletePost postId) :: f.2)
  | .rejected =>
    (h, showNotification t now "Error: Could not delete post." a, [.call (.deletePost postId)])

/-- Whether the card of `post` carries the delete button: `post.username === user`. -/
def deleteAvailable (user : String) (post : Post) : Bool := post.username == user

/-- The comment count shown on a card: `post.comments?.length || 0`. -/
def displayedCommentCount (post : Post) : Nat :=
  match post.comments with
  | some comments => comments.length
  | none => 0

/-- The posts that get a card: `posts.filter(post => post.status !== 'blocked')`. -/
def renderedPosts (posts : List Post) : List Post :=
  posts.filter (fun post => post.status != "blocked")

/-- The comments shown on a card:
`Array.isArray(post.comments) && post.comments.filter(comment => comment.status !== 'blocked')`. -/
def renderedComments (post : Post) : List Comment :=
  match post.comments with
  | some comments => comments.filter (fun comment => comment.status != "blocked")
  | none => []

/-- A rendered card: the post and the comments shown under it. -/
structure PostCard where
  post : Post
  comments : List Comment
deriving DecidableEq, Repr

/-- The rendered feed, one card per kept post, in order. -/
def renderFeed (posts : List Post) : List PostCard :=
  (renderedPosts posts).map (fun post => { post := post, comments := renderedComments post })

/-! ## ChatPanel.jsx: message store -/

/-- A chat message as the panel reads it. -/
structure ChatMessage where
  user : String
  text : String
deriving DecidableEq, Repr

/-- State cells of `ChatPanel`. -/
structure ChatState where
  newMessage : String
  messages : List ChatMessage
deriving DecidableEq, Repr

/-- `fetchMessages()` with the outcome of `api.getMessages(currentUser)`. -/
def fetchMessages (currentUser : Option String) (r : Fetched ChatMessage) (c : ChatState) :
    ChatState × List Effect :=
  match currentUser with
  | none => (c, [])
  | some u =>
    if jsNot u then (c, [])
    else
      match r with
      | .array fetchedMessages =>
        ({ c with messages := fetchedMessages }, [.call (.getMessages u)])
      | .notArray => (c, [.call (.getMessages u)])
      | .rejected =>
        (c, [.call (.getMessages u), .consoleError "Failed to fetch messages:"])

/-- The hard-coded chat partner `activeUser`. -/
def activeUser : String := "Dana"

/-- `handleSendMessage(e)`: `resp` is the outcome of `api.sendMessage`, `refetch` the
outcome of the `fetchMessages()` it triggers. -/
def handleSendMessage (currentUser : Option String) (t now : Nat) (resp : WriteResult)
    (refetch : Fetched ChatMessage) (c : ChatState) (a : AppState) :
    ChatState × AppState × List Effect :=
  if jsNot (jsTrim c.newMessage) then (c, a, [])
  else
    match resp with
    | .body notification =>
      let r := fetchMessages currentUser refetch { c with newMessage := "" }
      (r.1, notifyIfPresent t now notification a,
        .call (.sendMessage currentUser activeUser c.newMessage) :: r.2)
    | .rejected =>
      (c, showNotification t now "Error: Could not send message." a,
        [.call (.sendMessage currentUser activeUser c.newMessage),
         .consoleError "Failed to send message:"])

/-! ## Polling effects of HomePage.jsx and ChatPanel.jsx -/

/-- A polling effect: the due time of the live `setInterval` timer, if any, and the times
at which the fetch function has been invoked, oldest first. -/
structure PollState where
  intervalDue : Option Nat
  fetchTimes : List Nat
deriving DecidableEq, Repr

/-- Before the view is mounted. -/
def PollState.initial : PollState := { intervalDue := none, fetchTimes := [] }

/-- Period of `setInterval(fetchPosts, 5000)`. -/
def postsPollPeriod : Nat := 5000

/-- Period of `setInterval(fetchMessages, 3000)`. -/
def chatPollPeriod : Nat := 3000

/-- The effect body run at time `t`: call the fetch function, then register the interval. -/
def pollActivate (period t : Nat) (s : PollState) : PollState :=
  { intervalDue := some (t + period), fetchTimes := s.fetchTimes ++ [t] }

/-- Let time pass up to `t`: the live interval timer, if due, invokes the fetch function
at each of its due times up to `t` and is rescheduled one period later each time. -/
def pollAdvance (period t : Nat) (s : PollState) : PollState :=
  match s.intervalDue with
  | none => s
  | some due =>
    if due ≤ t then
      { intervalDue := some (due + ((t - due) / period + 1) * period)
        fetchTimes :=
          s.fetchTimes ++ (List.range ((t - due) / period + 1)).map (fun k => due + k * period) }
    else s

/-- The effect cleanup `clearInterval(interval)`. -/
def pollTeardown (s : PollState) : PollState := { s with intervalDue := none }

/-! ## AuthPage.jsx: login and signup -/

/-- State cells of `AuthPage`. -/
structure AuthState where
  mode : String
  username : String
  email : String
  password : String
  confirmPassword : String
deriving DecidableEq, Repr

/-- Initial values of the `useState` cells of `AuthPage`. -/
def AuthState.initial : AuthState :=
  { mode := "login", username := "", email := "", password := "", confirmPassword := "" }

/-- Outcome of `api.login` / `api.signup` followed by `response.json()`: either of
them throws, or there is a response with its `ok` flag and the `username` and `detail`
fields of its body. -/
inductive AuthResult where
  | failed
  | response (ok : Bool) (username : Option String) (detail : Option String)
deriving DecidableEq, Repr

/-- `handleAuthAction()` with the outcome of the call it may issue. -/
def handleAuthAction (resp : AuthResult) (s : AuthState) : AuthState × List Effect :=
  if s.mode == "login" then
    if jsNot s.username || jsNot s.password then
      (s, [.alert "Please enter username and password."])
    else
      match resp with
      | .response ok username detail =>
        if ok then (s, [.call (.login s.username s.password), .onLogin username])
        else
          (s, [.call (.login s.username s.password),
               .alert ("Login failed: " ++ jsInterp detail)])
      | .failed =>
        (s, [.call (.login s.username s.password),
             .alert "An error occurred during login. Is the backend server running?",
             .consoleError "Login API call failed:"])
  else
    if s.password != s.confirmPassword then
      (s, [.alert "Passwords do not match!"])
    else if jsNot s.username || jsNot s.email || jsNot s.password then
      (s, [.alert "Please fill out all fields."])
    else
      match resp with
      | .response ok _ detail =>
        if ok then
          ({ s with mode := "login" },
            [.call (.signup s.username s.email s.password),
             .alert "Sign up successful! Please log in."])
        else
          (s, [.call (.signup s.username s.email s.password),
               .alert ("Sign up failed: " ++ jsInterp detail)])
      | .failed =>
        (s, [.call (.signup s.username s.email s.password),
             .alert "An error occurred during sign up. Is the backend server running?",
             .consoleError "Signup API call failed:"])

/-- The mode toggle link: `setMode(mode === 'login' ? 'signup' : 'login')`. -/
def toggleMode (s : AuthState) : AuthState :=
  { s with mode := if s.mode == "login" then "signup" else "login" }

/-- A user or network event on the auth page: typing into a field, the mode link, or the
submit button together with the outcome of the call it may issue. -/
inductive AuthEvent where
  | setUsername (v : String)
  | setEmail (v : String)
  | setPassword (v : String)
  | setConfirmPassword (v : String)
  | toggle
  | submit (resp : AuthResult)
deriving DecidableEq, Repr

/-- Perform one event on the auth page. -/
def AuthEvent.apply (s : AuthState) : AuthEvent → AuthState
  | .setUsername v => { s with username := v }
  | .setEmail v => { s with email := v }
  | .setPassword v => { s with password := v }
  | .setConfirmPassword v => { s with confirmPassword := v }
  | .toggle => toggleMode s
  | .submit resp => (handleAuthAction resp s).1

/-- The auth page after a sequence of events, oldest first, from its initial state. -/
def runAuth (evs : List AuthEvent) : AuthState :=
  evs.foldl AuthEvent.apply AuthState.initial

/-! ## ProfilePage.jsx: profile editor -/

/-- The constant `API_BASE_URL`. -/
def API_BASE_URL : String := "http://127.0.0.1:8000"

/-- Replace the first occurrence of `pat` in a list of characters by `rep`. -/
def replaceFirstChars (pat rep : List Char) : List Char → List Char
  | [] => if pat.isPrefixOf [] then rep else []
  | c :: cs =>
    if pat.isPrefixOf (c :: cs) then rep ++ (c :: cs).drop pat.length
    else c :: replaceFirstChars pat rep cs

/-- JavaScript `s.replace(pat, rep)` for a string pattern: only the first occurrence is
replaced. The replacement is taken literally (the only one used is the empty string). -/
def jsReplace (s pat rep : String) : String :=
  String.mk (replaceFirstChars pat.data rep.data s.data)

/-- The fields of a profile body the page reads; a field is `none` when absent. -/
structure ProfileBody where
  bio : Option String
  email : Option String
  profile_image_url : Option String
deriving DecidableEq, Repr

/-- Outcome of `api.getProfile` / `api.updateProfile`: the promise rejects, or resolves
to JSON `null`, or to an object. -/
inductive ProfileResult where
  | rejected
  | null
  | body (data : ProfileBody)
deriving DecidableEq, Repr

/-- Outcome of `api.uploadImage`: the promise rejects, or resolves to an object whose
`file_url` field may be absent. -/
inductive UploadResult where
  | rejected
  | body (file_url : Option String)
deriving DecidableEq, Repr

/-- State cells of `ProfilePage`; `bio` is `none` after `setBio(undefined)`, and
`selectedFile` names the chosen file. -/
structure ProfileState where
  bio : Option String
  email : String
  profileImagePreview : Option String
  profileImageUrl : Option String
  selectedFile : Option String
deriving DecidableEq, Repr

/-- Initial values of the `useState` cells of `ProfilePage`. -/
def ProfileState.initial : ProfileState :=
  { bio := some "", email := "", profileImagePreview := none, profileImageUrl := none,
    selectedFile := none }

/-- JavaScript `v || ""` for a string field that may be absent. -/
def jsOrEmpty : Option String → String
  | some v => v
  | none => ""

/-- The value stored by `if (u) setProfileImageUrl(API_BASE_URL + u) else setProfileImageUrl(null)`. -/
def storedImageUrl (profile_image_url : Option String) : Option String :=
  match profile_image_url with
  | some u => if jsNot u then none else some (API_BASE_URL ++ u)
  | none => none

/-- `fetchProfileData()` with the outcome of `api.getProfile(user)`. -/
def fetchProfileData (user : String) (r : ProfileResult) (p : ProfileState) :
    ProfileState × List Effect :=
  match r with
  | .body data =>
    ({ p with
       bio := some (jsOrEmpty data.bio)
       email := jsOrEmpty data.email
       profileImageUrl :=
         match data.profile_image_url with
         | some u => if jsNot u then p.profileImageUrl else some (API_BASE_URL ++ u)
         | none => p.profileImageUrl },
     [.call (.getProfile user)])
  | .null => (p, [.call (.getProfile user)])
  | .rejected => (p, [.call (.getProfile user), .consoleError "Failed to fetch profile:"])

/-- The first line of `handleSave`:
`profileImageUrl ? profileImageUrl.replace(API_BASE_URL, "") : null`. -/
def existingImageUrl (p : ProfileState) : Option String :=
  match p.profileImageUrl with
  | some url => if jsNot url then none else some (jsReplace url API_BASE_URL "")
  | none => none

/-- The upload step of `handleSave`: the image reference to save, or `none` when the step
throws, together with the calls it issued. -/
def uploadStep (user : String) (upload : UploadResult) (p : ProfileState) :
    Option (Option String) × List Effect :=
  match p.selectedFile with
  | none => (some (existingImageUrl p), [])
  | some file =>
    match upload with
    | .body (some f) =>
      if jsNot f then (none, [.call (.uploadImage user file)])
      else (some (some f), [.call (.uploadImage user file)])
    | .body none => (none, [.call (.uploadImage user file)])
    | .rejected => (none, [.call (.uploadImage user file)])

/-- `handleSave()`: `upload` is the outcome of `api.uploadImage`, consulted only when a
file is selected, and `update` the outcome of `api.updateProfile`. -/
def handleSave (user : String) (upload : UploadResult) (update : ProfileResult)
    (p : ProfileState) : ProfileState × List Effect :=
  match uploadStep user upload p with
  | (none, fx) =>
    (p, fx ++ [.consoleError "Failed to save profile:", .alert "Error: Could not save profile."])
  | (some finalImageUrl, fx) =>
    match update with
    | .body data =>
      ({ p with
         bio := data.bio
         profileImageUrl := storedImageUrl data.profile_image_url
         profileImagePreview := none
         selectedFile := none },
       fx ++ [.call (.updateProfile user p.bio finalImageUrl), .alert "Profile Saved!",
              .onNavigateHome])
    | .null =>
      (p, fx ++ [.call (.updateProfile user p.bio finalImageUrl),
                 .consoleError "Failed to save profile:",
                 .alert "Error: Could not save profile."])
    | .rejected =>
      (p, fx ++ [.call (.updateProfile user p.bio finalImageUrl),
                 .consoleError "Failed to save profile:",
                 .alert "Error: Could not save profile."])

/-- The image shown: `profileImagePreview || profileImageUrl`. -/
def displayImage (p : ProfileState) : Option String :=
  match p.profileImagePreview with
  | some v => if jsNot v then p.profileImageUrl else some v
  | none => p.profileImageUrl

/-! ## App.jsx: wiring of the pages -/

/-- What `App` renders. -/
inductive View where
  | auth
  | home
  | profile
  | blank
deriving DecidableEq, Repr

/-- The page chosen by `currentUser ? renderPage() : <AuthPage/>`; `renderPage` returns
nothing when `currentPage` is neither `home` nor `profile`. -/
def currentView (s : AppState) : View :=
  match s.currentUser with
  | none => .auth
  | some u =>
    if jsNot u then .auth
    else if s.currentPage == "home" then .home
    else if s.currentPage == "profile" then .profile
    else .blank

/-- Deliver a callback effect of a page to `App`: `onLogin` is `handleLogin`,
`onNavigateHome` is `navigateToHome`; other effects do not touch the `App` state. -/
def dispatchApp (a : AppState) : Effect → AppState
  | .onLogin username => handleLogin username a
  | .onNavigateHome => navigateToHome a
  | _ => a

/-- The `App` state after `handleAuthAction` ran on the auth page. -/
def authThroughApp (resp : AuthResult) (s : AuthState) (a : AppState) : AppState :=
  (handleAuthAction resp s).2.foldl dispatchApp a

/-- An operation on the `App` state. -/
inductive AppOp where
  | showNotification (t now : Nat) (message : String)
  | handleLike (user : String) (now : Nat) (postId : Nat) (postUser : String)
  | handleLogin (username : Option String)
  | handleLogout
  | navigateToHome
  | navigateToProfile
  | closePopUp
  | expire (t : Nat)
deriving DecidableEq, Repr

/-- Perform one operation on the `App` state. -/
def AppOp.apply (s : AppState) : AppOp → AppState
  | .showNotification t now m => SafeChat.showNotification t now m s
  | .handleLike user now postId postUser => SafeChat.handleLike user now postId postUser s
  | .handleLogin username => SafeChat.handleLogin username s
  | .handleLogout => SafeChat.handleLogout s
  | .navigateToHome => SafeChat.navigateToHome s
  | .navigateToProfile => SafeChat.navigateToProfile s
  | .closePopUp => SafeChat.closePopUp s
  | .expire t => fireTimers t s

/-- The `App` state after a sequence of operations, oldest first, from its initial state. -/
def runApp (ops : List AppOp) : AppState :=
  ops.foldl AppOp.apply AppState.initial

/-- The API calls among a list of effects. -/
def callsOf (fx : List Effect) : List ApiCall :=
  fx.filterMap (fun e => match e with | .call c => some c | _ => none)

/-- The alert texts among a list of effects. -/
def alertsOf (fx : List Effect) : List String :=
  fx.filterMap (fun e => match e with | .alert m => some m | _ => none)

/-- The `onLogin` invocations among a list of effects. -/
def loginsOf (fx : List Effect) : List (Option String) :=
  fx.filterMap (fun e => match e with | .onLogin u => some u | _ => none)

/-! ## Sample data used by the concrete statements -/

/-- A pending post by `bob` with one approved and one blocked comment. -/
def samplePost : Post :=
  { id := 7, username := "bob", text := "hello", created_at := "2024-01-01T00:00:00",
    status := "pending", likes := 0,
    comments := some [{ id := 8, username := "eve", text := "hi", status := "approved" },
                      { id := 9, username := "mallory", text := "spam", status := "blocked" }] }

/-- A home page holding `samplePost`. -/
def sampleHome : HomeState := { HomeState.initial with posts := [samplePost] }

/-- A chat panel holding one old message. -/
def sampleChat : ChatState :=
  { newMessage := "", messages := [{ user := "alice", text := "old" }] }

/-- The login form filled with `alice` / `secret`. -/
def sampleLogin : AuthState :=
  { AuthState.initial with username := "alice", password := "secret" }

/-- The signup form filled consistently. -/
def sampleSignup : AuthState :=
  { mode := "signup", username := "alice", email := "alice@example.org",
    password := "secret", confirmPassword := "secret" }

/-- An `App` state showing the profile page of a previous user. -/
def sampleApp : AppState := { AppState.initial with currentUser := some "carol", currentPage := "profile" }

/-- A profile page with a stored image and a newly selected file. -/
def sampleProfile : ProfileState :=
  { bio := some "hello", email := "alice@example.org", profileImagePreview := some "blob:1",
    profileImageUrl := some "http://127.0.0.1:8000/static/old.png",
    selectedFile := some "new.png" }

/-- The saved profile the server answers with after the upload of `new.png`. -/
def sampleSaved : ProfileBody :=
  { bio := some "hello", email := none, profile_image_url := some "/static/new.png" }

/-- A response of `update_profile` that carries another image reference than the one
uploaded. -/
def sampleSavedOther : ProfileBody :=
  { bio := some "hello", email := none, profile_image_url := some "/static/other.png" }

/-- A home page holding `samplePost` whose new-post draft is empty. -/
def sampleHomeIdle : HomeState := { sampleHome with newPostText := "" }

/-! ## Helper lemmas -/

theorem string_mk_eq_empty (l : List Char) : String.mk l = "" ↔ l = [] := by
  constructor
  · intro h
    have := congrArg String.data h
    simpa using this
  · rintro rfl
    rfl

theorem trimChars_eq_nil (cs : List Char) :
    trimChars cs = [] ↔ ∀ c ∈ cs, isJsWhiteSpace c = true := by
  unfold trimChars
  rw [List.reverse_eq_nil_iff, List.dropWhile_eq_nil_iff]
  constructor
  · intro h
    by_contra hne
    have hd : cs.dropWhile isJsWhiteSpace ≠ [] := by
      rw [Ne, List.dropWhile_eq_nil_iff]
      exact hne
    have hmem := List.head_mem hd
    have hhead := List.head_dropWhile_not isJsWhiteSpace cs hd
    have := h _ (List.mem_reverse.mpr hmem)
    simp [this] at hhead
  · intro h
    have : cs.dropWhile isJsWhiteSpace = [] := List.dropWhile_eq_nil_iff.mpr h
    simp [this]

/-- The guard `!s.trim()` holds exactly for strings made of white space only. -/
theorem jsNot_jsTrim (s : String) :
    jsNot (jsTrim s) = true ↔ ∀ c ∈ s.data, isJsWhiteSpace c = true := by
  unfold jsNot jsTrim
  rw [beq_iff_eq, string_mk_eq_empty, trimChars_eq_nil]

theorem jsNot_iff (s : String) : jsNot s = true ↔ s = "" := by
  unfold jsNot
  exact beq_iff_eq

/-! ## Theorems -/

/-- C1: after `showNotification(m)` the panel list has one more entry, its head is the
new entry with text `m` and type `warning`, and its tail is the previous list in order. -/
theorem showNotification_prepends (s : AppState) (t now : Nat) (m : String) :
    (showNotification t now m s).notifications.length = s.notifications.length + 1 ∧
    (showNotification t now m s).notifications.head? =
      some { id := now, type := "warning", text := m } ∧
    ((showNotification t now m s).notifications.head?.map (fun n => n.text)) = some m ∧
    ((showNotification t now m s).notifications.head?.map (fun n => n.type)) = some "warning" ∧
    (showNotification t now m s).notifications.tail = s.notifications := by
  simp [showNotification]

/-- C2: the rendered feed is exactly the posts whose status is not `blocked`, in fetched
order, and every card shows exactly the comments of its post whose status is not
`blocked`, in order: nothing blocked is rendered, nothing else is dropped. -/
theorem renderFeed_exactly_non_blocked (posts : List Post) :
    (renderFeed posts).map (fun card => card.post) =
      posts.filter (fun p => decide (p.status ≠ "blocked")) ∧
    List.Sublist ((renderFeed posts).map (fun card => card.post)) posts ∧
    (∀ p, p ∈ (renderFeed posts).map (fun card => card.post) ↔
      p ∈ posts ∧ p.status ≠ "blocked") ∧
    (∀ card ∈ renderFeed posts,
      card.comments =
        (card.post.comments.getD []).filter (fun c => decide (c.status ≠ "blocked")) ∧
      List.Sublist card.comments (card.post.comments.getD []) ∧
      ∀ c, c ∈ card.comments ↔ c ∈ card.post.comments.getD [] ∧ c.status ≠ "blocked") := by
  have hmap : (renderFeed posts).map (fun card => card.post) = renderedPosts posts := by
    simp [renderFeed, Function.comp_def]
  have hfilter : renderedPosts posts = posts.filter (fun p => decide (p.status ≠ "blocked")) := by
    unfold renderedPosts
    congr 1
    funext p
    rw [Bool.eq_iff_iff]
    simp
  have hcomments : ∀ post : Post, renderedComments post =
      (post.comments.getD []).filter (fun c => decide (c.status ≠ "blocked")) := by
    intro post
    unfold renderedComments
    cases post.comments with
    | none => simp
    | some cs =>
      simp only [Option.getD_some]
      congr 1
      funext c
      rw [Bool.eq_iff_iff]
      simp
  refine ⟨hmap.trans hfilter, ?_, ?_, ?_⟩
  · rw [hmap, hfilter]
    exact List.filter_sublist posts
  · intro p
    rw [hmap, hfilter]
    simp [List.mem_filter]
  · intro card hcard
    obtain ⟨post, -, rfl⟩ := List.mem_map.mp hcard
    refine ⟨hcomments post, ?_, ?_⟩
    · show List.Sublist (renderedComments post) _
      rw [hcomments]
      exact List.filter_sublist _
    · intro c
      show c ∈ renderedComments post ↔ _
      rw [hcomments]
      simp [List.mem_filter]

/-- C3 (as stated, refuted): with `samplePost` in the list, a rejected fetch does not
leave the posts list as it was. -/
theorem fetchPosts_rejected_sample :
    (fetchPosts Fetched.rejected sampleHome).1.posts ≠ sampleHome.posts := by
  decide

/-- C3 (amended): when the posts fetch is rejected, `fetchPosts` sets the local posts
list to the empty list, whatever it held before. -/
theorem fetchPosts_rejected_clears (h : HomeState) :
    (fetchPosts Fetched.rejected h).1.posts = [] := by
  rfl

/-- C4: a successful fetch of an array replaces the whole local collection by that array,
for posts and for chat messages (a chat fetch takes place only for a set `currentUser`);
the result is the same whatever the collection held before. -/
theorem fetch_success_replaces (A : List Post) (h h2 : HomeState)
    (B : List ChatMessage) (c c2 : ChatState) (u : String) (hu : u ≠ "") :
    (fetchPosts (Fetched.array A) h).1.posts = A ∧
    (fetchMessages (some u) (Fetched.array B) c).1.messages = B ∧
    (fetchPosts (Fetched.array A) h).1.posts = (fetchPosts (Fetched.array A) h2).1.posts ∧
    (fetchMessages (some u) (Fetched.array B) c).1.messages =
      (fetchMessages (some u) (Fetched.array B) c2).1.messages := by
  have hn : jsNot u = false := by
    rw [Bool.eq_false_iff, Ne, jsNot_iff]
    exact hu
  simp [fetchPosts, fetchMessages, hn]

/-- Witness for C4: non-empty prior collections are replaced by the fetched ones. -/
theorem fetch_success_replaces_witness :
    "alice" ≠ "" ∧
    (fetchPosts (Fetched.array []) sampleHome).1.posts = [] ∧
    (fetchMessages (some "alice") (Fetched.array [{ user := "Dana", text := "hi" }])
      sampleChat).1.messages = [{ user := "Dana", text := "hi" }] :=
  ⟨by decide,
   (fetch_success_replaces [] sampleHome HomeState.initial [{ user := "Dana", text := "hi" }]
      sampleChat sampleChat "alice" (by decide)).1,
   (fetch_success_replaces [] sampleHome HomeState.initial [{ user := "Dana", text := "hi" }]
      sampleChat sampleChat "alice" (by decide)).2.1⟩

/-- C5 (the code at the failing input): two publishes made while `Date.now()` reads the
same millisecond give two entries with the same id, and so does a publish followed by a
like in that millisecond. -/
theorem notification_ids_collide :
    ¬ ((runInsertions [Insertion.publish 0 1000 "a", Insertion.publish 0 1000 "b"]).notifications.map
        (fun n => n.id)).Nodup ∧
    ¬ ((runInsertions [Insertion.publish 0 1000 "a",
        Insertion.like "alice" 1000 7 "bob"]).notifications.map (fun n => n.id)).Nodup := by
  decide

/-- C6 (the code at the failing input): publish `a` at time 0 and `b` at time 1000; the
pop-up shows `b` up to time 3999 and the timer of the first publish clears it at time
4000, before `b` has been shown for 4000 ms. -/
theorem popUp_cleared_by_stale_timer :
    popUpAt [(0, 0, "a"), (1000, 1000, "b")] 3999 = some "b" ∧
    popUpAt [(0, 0, "a"), (1000, 1000, "b")] 4000 = none ∧
    4000 < 1000 + 4000 := by
  decide

/-- C7: when the post text is empty or white space only, `handleCreatePost` issues no
API call, shows the alert `Please add some text to your post.` and leaves
`newPostText`, `selectedImage` and `posts` (indeed every state cell) unchanged; when the
text has a character that is not white space, the first thing it does is issue
`create_post` with the user and the untrimmed text, and no alert is shown. -/
theorem handleCreatePost_validation (user : String) (t now : Nat) (resp : WriteResult)
    (refetch : Fetched Post) (h : HomeState) (a : AppState) :
    ((∀ c ∈ h.newPostText.data, isJsWhiteSpace c = true) →
      callsOf (handleCreatePost user t now resp refetch h a).2.2 = [] ∧
      alertsOf (handleCreatePost user t now resp refetch h a).2.2 =
        ["Please add some text to your post."] ∧
      (handleCreatePost user t now resp refetch h a).1.newPostText = h.newPostText ∧
      (handleCreatePost user t now resp refetch h a).1.selectedImage = h.selectedImage ∧
      (handleCreatePost user t now resp refetch h a).1.posts = h.posts ∧
      (handleCreatePost user t now resp refetch h a).1 = h ∧
      (handleCreatePost user t now resp refetch h a).2.1 = a) ∧
    ((∃ c ∈ h.newPostText.data, isJsWhiteSpace c = false) →
      (handleCreatePost user t now resp refetch h a).2.2.head? =
        some (Effect.call (ApiCall.createPost user h.newPostText none)) ∧
      (callsOf (handleCreatePost user t now resp refetch h a).2.2).head? =
        some (ApiCall.createPost user h.newPostText none) ∧
      alertsOf (handleCreatePost user t now resp refetch h a).2.2 = []) := by
  constructor
  · intro hws
    have hg : jsNot (jsTrim h.newPostText) = true := (jsNot_jsTrim _).mpr hws
    simp [handleCreatePost, hg, callsOf, alertsOf]
  · rintro ⟨c, hc, hcw⟩
    have hg : jsNot (jsTrim h.newPostText) = false := by
      rw [Bool.eq_false_iff, Ne, jsNot_jsTrim]
      intro hall
      rw [hall c hc] at hcw
      exact Bool.noConfusion hcw
    cases resp with
    | rejected => simp [handleCreatePost, hg, callsOf, alertsOf]
    | body n =>
      cases refetch <;> simp [handleCreatePost, hg, callsOf, alertsOf, fetchPosts]

/-- Witness for C7: three blanks are rejected without a call; the text ` hi ` is sent
untrimmed. -/
theorem handleCreatePost_validation_witness :
    callsOf (handleCreatePost "alice" 0 0 (WriteResult.body none) (Fetched.array [])
      { sampleHome with newPostText := "   " } AppState.initial).2.2 = [] ∧
    (callsOf (handleCreatePost "alice" 0 0 (WriteResult.body none) (Fetched.array [])
      { sampleHome with newPostText := " hi " } AppState.initial).2.2).head? =
        some (ApiCall.createPost "alice" " hi " none) :=
  ⟨((handleCreatePost_validation "alice" 0 0 (WriteResult.body none) (Fetched.array [])
      { sampleHome with newPostText := "   " } AppState.initial).1 (by decide)).1,
   ((handleCreatePost_validation "alice" 0 0 (WriteResult.body none) (Fetched.array [])
      { sampleHome with newPostText := " hi " } AppState.initial).2
        ⟨'h', by decide, by decide⟩).2.1⟩

/-- C8: in login mode `handleAuthAction` issues the login call exactly when username and
password are both non-empty; when one is empty it issues no call, shows the alert and
does not invoke `onLogin`. -/
theorem login_call_iff_credentials (resp : AuthResult) (s : AuthState)
    (hmode : s.mode = "login") :
    (callsOf (handleAuthAction resp s).2 = [ApiCall.login s.username s.password] ↔
      s.username ≠ "" ∧ s.password ≠ "") ∧
    (callsOf (handleAuthAction resp s).2 ≠ [] ↔ s.username ≠ "" ∧ s.password ≠ "") ∧
    (s.username = "" ∨ s.password = "" →
      callsOf (handleAuthAction resp s).2 = [] ∧
      alertsOf (handleAuthAction resp s).2 = ["Please enter username and password."] ∧
      loginsOf (handleAuthAction resp s).2 = [] ∧
      (handleAuthAction resp s).1 = s) := by
  by_cases hu : s.username = ""
  · simp [handleAuthAction, hmode, hu, jsNot, callsOf, alertsOf, loginsOf]
  · by_cases hp : s.password = ""
    · simp [handleAuthAction, hmode, hu, hp, jsNot, callsOf, alertsOf, loginsOf]
    · cases resp with
      | failed => simp [handleAuthAction, hmode, hu, hp, jsNot, callsOf]
      | response ok username detail =>
        cases ok <;> simp [handleAuthAction, hmode, hu, hp, jsNot, callsOf]

/-- Witness for C8: `alice` with password `secret` in login mode, server unreachable:
the login call is issued with these credentials. -/
theorem login_call_iff_credentials_witness :
    sampleLogin.mode = "login" ∧
    callsOf (handleAuthAction AuthResult.failed sampleLogin).2 =
      [ApiCall.login "alice" "secret"] :=
  ⟨rfl, (login_call_iff_credentials AuthResult.failed sampleLogin rfl).1.mpr
    ⟨by decide, by decide⟩⟩

/-- C9: in signup mode `handleAuthAction` issues the signup call exactly when the
password equals its confirmation and username, email and password are all non-empty;
otherwise it issues no call, shows exactly one alert and leaves the mode (and every other
state cell) unchanged, the mismatch alert being the one shown whenever the passwords
differ, also when a field is missing. -/
theorem signup_call_iff_valid (resp : AuthResult) (s : AuthState)
    (hmode : s.mode = "signup") :
    (callsOf (handleAuthAction resp s).2 = [ApiCall.signup s.username s.email s.password] ↔
      s.password = s.confirmPassword ∧ s.username ≠ "" ∧ s.email ≠ "" ∧ s.password ≠ "") ∧
    (¬ (s.password = s.confirmPassword ∧ s.username ≠ "" ∧ s.email ≠ "" ∧ s.password ≠ "") →
      callsOf (handleAuthAction resp s).2 = [] ∧
      (alertsOf (handleAuthAction resp s).2).length = 1 ∧
      (handleAuthAction resp s).1.mode = s.mode ∧
      (handleAuthAction resp s).1 = s) ∧
    (s.password ≠ s.confirmPassword →
      alertsOf (handleAuthAction resp s).2 = ["Passwords do not match!"]) ∧
    (s.password = s.confirmPassword → (s.username = "" ∨ s.email = "" ∨ s.password = "") →
      alertsOf (handleAuthAction resp s).2 = ["Please fill out all fields."]) := by
  have hm : (s.mode == "login") = false := by
    rw [hmode]
    decide
  by_cases hpc : s.password = s.confirmPassword
  · by_cases hu : s.username = ""
    · simp [handleAuthAction, hm, hpc, hu, jsNot, callsOf, alertsOf]
    · by_cases he : s.email = ""
      · simp [handleAuthAction, hm, hpc, hu, he, jsNot, callsOf, alertsOf]
      · by_cases hp : s.confirmPassword = ""
        · simp [handleAuthAction, hm, hpc, hu, he, hp, jsNot, callsOf, alertsOf]
        · cases resp with
          | failed => simp [handleAuthAction, hm, hpc, hu, he, hp, jsNot, callsOf]
          | response ok username detail =>
            cases ok <;> simp [handleAuthAction, hm, hpc, hu, he, hp, jsNot, callsOf]
  · simp [handleAuthAction, hm, hpc, jsNot, callsOf, alertsOf]

/-- Witness for C9: a consistently filled signup form issues the signup call. -/
theorem signup_call_iff_valid_witness :
    sampleSignup.mode = "signup" ∧
    callsOf (handleAuthAction AuthResult.failed sampleSignup).2 =
      [ApiCall.signup "alice" "alice@example.org" "secret"] :=
  ⟨rfl, (signup_call_iff_valid AuthResult.failed sampleSignup rfl).1.mpr
    ⟨rfl, by decide, by decide, by decide⟩⟩

/-- C10 (as stated, refuted): for the white-space-only comment made of three blanks,
`handleAddComment` shows no alert and publishes nothing: the pop-up and the
notifications list stay as they were. -/
theorem handleAddComment_blank_is_silent :
    ¬ (alertsOf (handleAddComment "alice" 0 0 (WriteResult.body none) (Fetched.array [])
          7 "   " sampleHome AppState.initial).2.2 ≠ [] ∨
       (handleAddComment "alice" 0 0 (WriteResult.body none) (Fetched.array [])
          7 "   " sampleHome AppState.initial).2.1.notification ≠
            AppState.initial.notification ∨
       (handleAddComment "alice" 0 0 (WriteResult.body none) (Fetched.array [])
          7 "   " sampleHome AppState.initial).2.1.notifications ≠
            AppState.initial.notifications) := by
  decide

/-- C10 (amended): for every comment text that is empty or white space only,
`handleAddComment` issues no `create_post` call and returns silently: no effect at all
(no call, no alert), no published notification, and no state cell changes. -/
theorem handleAddComment_blank_blocks (user : String) (t now : Nat) (resp : WriteResult)
    (refetch : Fetched Post) (postId : Nat) (commentText : String)
    (h : HomeState) (a : AppState)
    (hws : ∀ c ∈ commentText.data, isJsWhiteSpace c = true) :
    callsOf (handleAddComment user t now resp refetch postId commentText h a).2.2 = [] ∧
    alertsOf (handleAddComment user t now resp refetch postId commentText h a).2.2 = [] ∧
    (handleAddComment user t now resp refetch postId commentText h a).2.2 = [] ∧
    (handleAddComment user t now resp refetch postId commentText h a).2.1 = a ∧
    (handleAddComment user t now resp refetch postId commentText h a).1 = h := by
  have hg : jsNot (jsTrim commentText) = true := (jsNot_jsTrim _).mpr hws
  simp [handleAddComment, hg, callsOf, alertsOf]

/-- Witness for C10 (amended): a comment of three blanks on `samplePost`. -/
theorem handleAddComment_blank_blocks_witness :
    (∀ c ∈ "   ".data, isJsWhiteSpace c = true) ∧
    callsOf (handleAddComment "alice" 0 0 (WriteResult.body none) (Fetched.array [])
      7 "   " sampleHome AppState.initial).2.2 = [] :=
  ⟨by decide,
   (handleAddComment_blank_blocks "alice" 0 0 (WriteResult.body none) (Fetched.array [])
      7 "   " sampleHome AppState.initial (by decide)).1⟩

/-- C11: in login mode with non-empty credentials, an ok response whose body has username
`u` leaves the session with `currentUser = u` and `currentPage = home`, whatever the page
was before; for a non-empty `u` the home view is rendered. -/
theorem login_ok_enters_home (s : AuthState) (a : AppState) (u : String)
    (detail : Option String) (hmode : s.mode = "login") (hu : s.username ≠ "")
    (hp : s.password ≠ "") :
    (authThroughApp (AuthResult.response true (some u) detail) s a).currentUser = some u ∧
    (authThroughApp (AuthResult.response true (some u) detail) s a).currentPage = "home" ∧
    (u ≠ "" →
      currentView (authThroughApp (AuthResult.response true (some u) detail) s a) = View.home) := by
  have h1 : authThroughApp (AuthResult.response true (some u) detail) s a =
      handleLogin (some u) a := by
    simp [authThroughApp, handleAuthAction, hmode, hu, hp, jsNot, dispatchApp]
  rw [h1]
  refine ⟨rfl, rfl, ?_⟩
  intro hne
  simp [currentView, handleLogin, jsNot, hne]

/-- Witness for C11: `alice` / `secret` answered by `{username: alice}` while the profile
page of a previous session was current. -/
theorem login_ok_enters_home_witness :
    sampleLogin.mode = "login" ∧
    (authThroughApp (AuthResult.response true (some "alice") none) sampleLogin
      sampleApp).currentUser = some "alice" ∧
    (authThroughApp (AuthResult.response true (some "alice") none) sampleLogin
      sampleApp).currentPage = "home" ∧
    currentView (authThroughApp (AuthResult.response true (some "alice") none) sampleLogin
      sampleApp) = View.home :=
  ⟨rfl,
   (login_ok_enters_home sampleLogin sampleApp "alice" none rfl (by decide) (by decide)).1,
   (login_ok_enters_home sampleLogin sampleApp "alice" none rfl (by decide) (by decide)).2.1,
   (login_ok_enters_home sampleLogin sampleApp "alice" none rfl (by decide) (by decide)).2.2
     (by decide)⟩

/-- C12: when the server rejects a login or a signup (the call was issued and the response
is not ok, its body carrying detail `d`), the one alert shown is `Login failed: ` followed
by `d`, respectively `Sign up failed: ` followed by `d`; `onLogin` is not invoked and the
mode, like every other state cell, is unchanged. -/
theorem server_rejection_shows_detail (s : AuthState) (username : Option String) (d : String) :
    (s.mode = "login" → s.username ≠ "" → s.password ≠ "" →
      alertsOf (handleAuthAction (AuthResult.response false username (some d)) s).2 =
        ["Login failed: " ++ d] ∧
      loginsOf (handleAuthAction (AuthResult.response false username (some d)) s).2 = [] ∧
      (handleAuthAction (AuthResult.response false username (some d)) s).1.mode = s.mode ∧
      (handleAuthAction (AuthResult.response false username (some d)) s).1 = s) ∧
    (s.mode = "signup" → s.password = s.confirmPassword → s.username ≠ "" → s.email ≠ "" →
      s.password ≠ "" →
      alertsOf (handleAuthAction (AuthResult.response false username (some d)) s).2 =
        ["Sign up failed: " ++ d] ∧
      loginsOf (handleAuthAction (AuthResult.response false username (some d)) s).2 = [] ∧
      (handleAuthAction (AuthResult.response false username (some d)) s).1.mode = s.mode ∧
      (handleAuthAction (AuthResult.response false username (some d)) s).1 = s) := by
  constructor
  · intro hmode hu hp
    simp [handleAuthAction, hmode, hu, hp, jsNot, alertsOf, loginsOf, jsInterp]
  · intro hmode hpc hu he hp
    have hm : (s.mode == "login") = false := by
      rw [hmode]
      decide
    have hp2 : s.confirmPassword ≠ "" := hpc ▸ hp
    simp [handleAuthAction, hm, hpc, hu, he, hp2, jsNot, alertsOf, loginsOf, jsInterp]

/-- Witness for C12: both forms rejected with detail `Invalid credentials`. -/
theorem server_rejection_shows_detail_witness :
    alertsOf (handleAuthAction (AuthResult.response false none (some "Invalid credentials"))
      sampleLogin).2 = ["Login failed: Invalid credentials"] ∧
    alertsOf (handleAuthAction (AuthResult.response false none (some "Invalid credentials"))
      sampleSignup).2 = ["Sign up failed: Invalid credentials"] :=
  ⟨((server_rejection_shows_detail sampleLogin none "Invalid credentials").1
      rfl (by decide) (by decide)).1,
   ((server_rejection_shows_detail sampleSignup none "Invalid credentials").2
      rfl rfl (by decide) (by decide) (by decide)).1⟩

/-- C13 (as stated, refuted): `new.png` is selected and uploaded as `/static/new.png`.
When `update_profile` answers with `/static/other.png` the stored and displayed image is
that one, not the uploaded reference; when `update_profile` is rejected the stored image
stays `old.png` and the local preview stays on display. -/
theorem handleSave_state_from_response :
    sampleProfile.selectedFile = some "new.png" ∧
    (handleSave "alice" (UploadResult.body (some "/static/new.png"))
      (ProfileResult.body sampleSavedOther) sampleProfile).1.profileImageUrl =
        some "http://127.0.0.1:8000/static/other.png" ∧
    displayImage (handleSave "alice" (UploadResult.body (some "/static/new.png"))
      (ProfileResult.body sampleSavedOther) sampleProfile).1 ≠
        some (API_BASE_URL ++ "/static/new.png") ∧
    (handleSave "alice" (UploadResult.body (some "/static/new.png"))
      ProfileResult.rejected sampleProfile).1.profileImageUrl =
        some "http://127.0.0.1:8000/static/old.png" ∧
    displayImage (handleSave "alice" (UploadResult.body (some "/static/new.png"))
      ProfileResult.rejected sampleProfile).1 = some "blob:1" := by
  decide

/-- C13 (amended): a save with a selected file whose upload returns the non-empty
reference `f` issues `upload_image` first and `update_profile` second, whatever the second
call then answers, and the `update_profile` payload carries `profile_image_url = f`, not
the stored URL. The final image state comes from the `update_profile` response: with a
non-empty `profile_image_url = u` in it, the stored and the displayed image are
`API_BASE_URL` followed by `u` (so they reflect `f` when the server answers with `f`); with
none or an empty one, both are null; and when the call is rejected or answers null, the
page state is unchanged. -/
theorem handleSave_upload_then_update (user file f : String) (update : ProfileResult)
    (p : ProfileState) (hfile : p.selectedFile = some file) (hf : f ≠ "") :
    callsOf (handleSave user (UploadResult.body (some f)) update p).2 =
      [ApiCall.uploadImage user file, ApiCall.updateProfile user p.bio (some f)] ∧
    (∀ data : ProfileBody, update = ProfileResult.body data →
      data.profile_image_url = some f →
      (handleSave user (UploadResult.body (some f)) update p).1.profileImageUrl =
        some (API_BASE_URL ++ f) ∧
      displayImage (handleSave user (UploadResult.body (some f)) update p).1 =
        some (API_BASE_URL ++ f)) ∧
    (∀ (data : ProfileBody) (u : String), update = ProfileResult.body data →
      data.profile_image_url = some u → u ≠ "" →
      (handleSave user (UploadResult.body (some f)) update p).1.profileImageUrl =
        some (API_BASE_URL ++ u) ∧
      displayImage (handleSave user (UploadResult.body (some f)) update p).1 =
        some (API_BASE_URL ++ u)) ∧
    (∀ data : ProfileBody, update = ProfileResult.body data →
      data.profile_image_url = none ∨ data.profile_image_url = some "" →
      (handleSave user (UploadResult.body (some f)) update p).1.profileImageUrl = none ∧
      displayImage (handleSave user (UploadResult.body (some f)) update p).1 = none) ∧
    (∀ data : ProfileBody, update = ProfileResult.body data →
      (handleSave user (UploadResult.body (some f)) update p).1.bio = data.bio ∧
      (handleSave user (UploadResult.body (some f)) update p).1.profileImagePreview = none ∧
      (handleSave user (UploadResult.body (some f)) update p).1.selectedFile = none) ∧
    (update = ProfileResult.rejected ∨ update = ProfileResult.null →
      (handleSave user (UploadResult.body (some f)) update p).1 = p) := by
  have hn : jsNot f = false := by
    rw [Bool.eq_false_iff, Ne, jsNot_iff]
    exact hf
  have hstep : uploadStep user (UploadResult.body (some f)) p =
      (some (some f), [Effect.call (ApiCall.uploadImage user file)]) := by
    simp [uploadStep, hfile, hn]
  have hgen : ∀ (data : ProfileBody) (u : String), update = ProfileResult.body data →
      data.profile_image_url = some u → u ≠ "" →
      (handleSave user (UploadResult.body (some f)) update p).1.profileImageUrl =
        some (API_BASE_URL ++ u) ∧
      displayImage (handleSave user (UploadResult.body (some f)) update p).1 =
        some (API_BASE_URL ++ u) := by
    intro data u hupd hurl hu
    have hnu : jsNot u = false := by
      rw [Bool.eq_false_iff, Ne, jsNot_iff]
      exact hu
    subst hupd
    simp [handleSave, hstep, storedImageUrl, hurl, hnu, displayImage]
  refine ⟨?_, ?_, hgen, ?_, ?_, ?_⟩
  · cases update <;> simp [handleSave, hstep, callsOf]
  · intro data hupd hurl
    exact hgen data f hupd hurl hf
  · intro data hupd hurl
    subst hupd
    rcases hurl with h | h
    · simp [handleSave, hstep, storedImageUrl, h, displayImage]
    · simp [handleSave, hstep, storedImageUrl, h, displayImage, jsNot]
  · intro data hupd
    subst hupd
    simp [handleSave, hstep]
  · intro hupd
    rcases hupd with h | h
    · subst h
      simp [handleSave, hstep]
    · subst h
      simp [handleSave, hstep]

/-- Witness for C13: `new.png` uploaded as `/static/new.png` over the stored `old.png`,
once answered with the saved profile and once with another reference. -/
theorem handleSave_upload_then_update_witness :
    sampleProfile.selectedFile = some "new.png" ∧
    callsOf (handleSave "alice" (UploadResult.body (some "/static/new.png"))
      (ProfileResult.body sampleSaved) sampleProfile).2 =
      [ApiCall.uploadImage "alice" "new.png",
       ApiCall.updateProfile "alice" (some "hello") (some "/static/new.png")] ∧
    displayImage (handleSave "alice" (UploadResult.body (some "/static/new.png"))
      (ProfileResult.body sampleSaved) sampleProfile).1 =
      some (API_BASE_URL ++ "/static/new.png") ∧
    displayImage (handleSave "alice" (UploadResult.body (some "/static/new.png"))
      (ProfileResult.body sampleSavedOther) sampleProfile).1 =
      some (API_BASE_URL ++ "/static/other.png") :=
  ⟨rfl,
   (handleSave_upload_then_update "alice" "new.png" "/static/new.png"
      (ProfileResult.body sampleSaved) sampleProfile rfl (by decide)).1,
   ((handleSave_upload_then_update "alice" "new.png" "/static/new.png"
      (ProfileResult.body sampleSaved) sampleProfile rfl (by decide)).2.1
      _ rfl rfl).2,
   ((handleSave_upload_then_update "alice" "new.png" "/static/new.png"
      (ProfileResult.body sampleSavedOther) sampleProfile rfl (by decide)).2.2.1
      _ "/static/other.png" rfl rfl (by decide)).2⟩

/-- C14 (as stated, refuted): an ok signup response moves the mode from `signup` to
`login` without any use of the toggle. -/
theorem signup_ok_changes_mode :
    sampleSignup.mode = "signup" ∧
    (handleAuthAction (AuthResult.response true none none) sampleSignup).1.mode = "login" ∧
    (handleAuthAction (AuthResult.response true none none) sampleSignup).1.mode ≠
      sampleSignup.mode := by
  decide

/-- The mode of a state whose mode is `login` or `signup` stays one of the two under
every event. -/
theorem mode_valid_step (s : AuthState) (ev : AuthEvent)
    (h : s.mode = "login" ∨ s.mode = "signup") :
    (ev.apply s).mode = "login" ∨ (ev.apply s).mode = "signup" := by
  cases ev with
  | setUsername v => exact h
  | setEmail v => exact h
  | setPassword v => exact h
  | setConfirmPassword v => exact h
  | toggle =>
    show (toggleMode s).mode = "login" ∨ (toggleMode s).mode = "signup"
    unfold toggleMode
    by_cases hm : s.mode = "login" <;> simp [hm]
  | submit resp =>
    show (handleAuthAction resp s).1.mode = "login" ∨ (handleAuthAction resp s).1.mode = "signup"
    unfold handleAuthAction
    rcases resp with _ | ⟨ok, u, d⟩ <;> (try cases ok) <;> (repeat' split) <;> simp_all

theorem mode_valid_foldl (evs : List AuthEvent) (s : AuthState)
    (h : s.mode = "login" ∨ s.mode = "signup") :
    (evs.foldl AuthEvent.apply s).mode = "login" ∨
      (evs.foldl AuthEvent.apply s).mode = "signup" := by
  induction evs generalizing s with
  | nil => exact h
  | cons ev rest ih => exact ih _ (mode_valid_step s ev h)

/-- From a state whose mode is `login` or `signup`, `handleAuthAction` changes the mode
only on an ok response to an issued signup call, and then to `login`. -/
theorem handleAuthAction_mode_change (s : AuthState) (resp : AuthResult)
    (hvalid : s.mode = "login" ∨ s.mode = "signup")
    (hne : (handleAuthAction resp s).1.mode ≠ s.mode) :
    s.mode = "signup" ∧
    callsOf (handleAuthAction resp s).2 ≠ [] ∧
    (∃ u d, resp = AuthResult.response true u d) ∧
    (handleAuthAction resp s).1.mode = "login" := by
  rcases hvalid with h | h
  · exfalso
    apply hne
    unfold handleAuthAction
    rcases resp with _ | ⟨ok, u, d⟩ <;> (try cases ok) <;> (repeat' split) <;> simp_all
  · have hm : (s.mode == "login") = false := by
      rw [h]
      decide
    refine ⟨h, ?_⟩
    revert hne
    unfold handleAuthAction
    rcases resp with _ | ⟨ok, u, d⟩ <;> (try cases ok) <;> (repeat' split) <;>
      simp_all [callsOf]

/-- C14 (amended): starting from `login`, after every sequence of events the mode is
`login` or `signup`; the toggle maps `login` to `signup` and `signup` to `login`, and
toggling twice gives the state back; typing into any of the four fields never changes the
mode; `handleAuthAction` changes the mode in one case only, an ok response to an issued
signup call, which sets it to `login`; and so an event that changes the mode is either the
toggle or a submit answered by such an ok signup response. -/
theorem auth_mode_machine (evs : List AuthEvent) (resp : AuthResult) (ev : AuthEvent)
    (v : String) :
    AuthState.initial.mode = "login" ∧
    ((runAuth evs).mode = "login" ∨ (runAuth evs).mode = "signup") ∧
    ((runAuth evs).mode = "login" → (toggleMode (runAuth evs)).mode = "signup") ∧
    ((runAuth evs).mode = "signup" → (toggleMode (runAuth evs)).mode = "login") ∧
    toggleMode (toggleMode (runAuth evs)) = runAuth evs ∧
    ((handleAuthAction resp (runAuth evs)).1.mode ≠ (runAuth evs).mode →
      (runAuth evs).mode = "signup" ∧
      callsOf (handleAuthAction resp (runAuth evs)).2 ≠ [] ∧
      (∃ u d, resp = AuthResult.response true u d) ∧
      (handleAuthAction resp (runAuth evs)).1.mode = "login") ∧
    (∀ u d, (runAuth evs).mode = "signup" →
      callsOf (handleAuthAction (AuthResult.response true u d) (runAuth evs)).2 ≠ [] →
      (handleAuthAction (AuthResult.response true u d) (runAuth evs)).1.mode = "login") ∧
    ((AuthEvent.apply (runAuth evs) (AuthEvent.setUsername v)).mode = (runAuth evs).mode ∧
      (AuthEvent.apply (runAuth evs) (AuthEvent.setEmail v)).mode = (runAuth evs).mode ∧
      (AuthEvent.apply (runAuth evs) (AuthEvent.setPassword v)).mode = (runAuth evs).mode ∧
      (AuthEvent.apply (runAuth evs) (AuthEvent.setConfirmPassword v)).mode =
        (runAuth evs).mode) ∧
    ((AuthEvent.apply (runAuth evs) ev).mode ≠ (runAuth evs).mode →
      ev = AuthEvent.toggle ∨
      ((runAuth evs).mode = "signup" ∧
        (AuthEvent.apply (runAuth evs) ev).mode = "login" ∧
        ∃ u d, ev = AuthEvent.submit (AuthResult.response true u d) ∧
          callsOf (handleAuthAction (AuthResult.response true u d) (runAuth evs)).2 ≠ [])) := by
  have hvalid := mode_valid_foldl evs AuthState.initial (Or.inl rfl)
  change (runAuth evs).mode = "login" ∨ (runAuth evs).mode = "signup" at hvalid
  generalize runAuth evs = s at hvalid ⊢
  refine ⟨rfl, hvalid, ?_, ?_, ?_, handleAuthAction_mode_change s resp hvalid, ?_,
    ⟨rfl, rfl, rfl, rfl⟩, ?_⟩
  · intro h
    simp [toggleMode, h]
  · intro h
    simp [toggleMode, h]
  · rcases hvalid with h | h
    · cases s
      simp_all [toggleMode]
    · cases s
      simp_all [toggleMode]
  · intro u d h hcall
    have hm : (s.mode == "login") = false := by
      rw [h]
      decide
    revert hcall
    unfold handleAuthAction
    (repeat' split) <;> simp_all [callsOf]
  · intro hne
    cases ev with
    | setUsername w => exact absurd rfl hne
    | setEmail w => exact absurd rfl hne
    | setPassword w => exact absurd rfl hne
    | setConfirmPassword w => exact absurd rfl hne
    | toggle => exact Or.inl rfl
    | submit r =>
      right
      obtain ⟨hs, hcall, ⟨u, d, hr⟩, hlogin⟩ := handleAuthAction_mode_change s r hvalid hne
      subst hr
      exact ⟨hs, hlogin, u, d, rfl, hcall⟩

/-- C15 (as stated, refuted): on the card of `samplePost`, written by `bob`, the delete
button is there for the user `bob` and not for the user `alice`: its availability depends
on the current user and on the author. -/
theorem delete_button_depends_on_user :
    samplePost ∈ renderedPosts sampleHome.posts ∧
    deleteAvailable "bob" samplePost = true ∧
    deleteAvailable "alice" samplePost = false ∧
    deleteAvailable "alice" { samplePost with username := "alice" } = true := by
  decide

/-- C15 (amended): the delete button is on a card exactly when the author of the post is
the current user; `handleDelete`, once invoked, issues `delete_post` for the given id as
its first effect and behaves the same whoever the current user is (the author of the post
is not even an input of it). -/
theorem delete_gate_and_call (user other : String) (post : Post) (t now : Nat)
    (r : PlainResult) (refetch : Fetched Post) (postId : Nat) (h : HomeState) (a : AppState) :
    (deleteAvailable user post = true ↔ post.username = user) ∧
    (handleDelete user t now r refetch postId h a).2.2.head? =
      some (Effect.call (ApiCall.deletePost postId)) ∧
    (callsOf (handleDelete user t now r refetch postId h a).2.2).head? =
      some (ApiCall.deletePost postId) ∧
    handleDelete user t now r refetch postId h a =
      handleDelete other t now r refetch postId h a := by
  refine ⟨?_, ?_, ?_, rfl⟩
  · simp [deleteAvailable]
  · cases r <;> simp [handleDelete]
  · cases r <;> simp [handleDelete, callsOf]

/-- Every operation on the `App` state keeps the previous notifications as a suffix. -/
theorem notifications_suffix_step (s : AppState) (op : AppOp) :
    List.IsSuffix s.notifications (op.apply s).notifications := by
  cases op with
  | showNotification t now m => exact List.suffix_cons _ _
  | handleLike user now postId postUser => exact List.suffix_cons _ _
  | handleLogin username => exact List.suffix_refl _
  | handleLogout => exact List.suffix_refl _
  | navigateToHome => exact List.suffix_refl _
  | navigateToProfile => exact List.suffix_refl _
  | closePopUp => exact List.suffix_refl _
  | expire t =>
    show List.IsSuffix s.notifications (fireTimers t s).notifications
    unfold fireTimers
    split
    · exact List.suffix_refl _
    · exact List.suffix_refl _

theorem notifications_suffix_foldl (ops : List AppOp) (s : AppState) :
    List.IsSuffix s.notifications (ops.foldl AppOp.apply s).notifications := by
  induction ops generalizing s with
  | nil => exact List.suffix_refl _
  | cons op rest ih => exact (notifications_suffix_step s op).trans (ih _)

/-- C16: for every reachable `App` state and every operation (publish, like, login,
logout, the two navigations, pop-up close, timer expiry) the notifications list before
the operation is a suffix of the list after it, and so it is over any further sequence of
operations; the length never decreases; and publishing the same message twice adds two
entries on top of the list. -/
theorem notifications_only_grow (ops more : List AppOp) (op : AppOp) (t1 n1 t2 n2 : Nat)
    (m : String) :
    List.IsSuffix (runApp ops).notifications (op.apply (runApp ops)).notifications ∧
    List.IsSuffix (runApp ops).notifications (runApp (ops ++ more)).notifications ∧
    (runApp ops).notifications.length ≤ (op.apply (runApp ops)).notifications.length ∧
    (showNotification t2 n2 m (showNotification t1 n1 m (runApp ops))).notifications =
      { id := n2, type := "warning", text := m } ::
      { id := n1, type := "warning", text := m } :: (runApp ops).notifications := by
  refine ⟨notifications_suffix_step _ op, ?_, (notifications_suffix_step _ op).length_le, rfl⟩
  unfold runApp
  rw [List.foldl_append]
  exact notifications_suffix_foldl more _

/-- A string with a character that is not white space passes the guard `!s.trim()`. -/
theorem jsNot_jsTrim_false (s : String) (h : ∃ c ∈ s.data, isJsWhiteSpace c = false) :
    jsNot (jsTrim s) = false := by
  obtain ⟨c, hc, hcw⟩ := h
  rw [Bool.eq_false_iff, Ne, jsNot_jsTrim]
  intro hall
  rw [hall c hc] at hcw
  exact Bool.noConfusion hcw

/-- C17: every write handler whose write call succeeds issues exactly two calls, the write
and then the fetch of its collection (`get_posts`, or `get_feed` for the chat), and the
collection it leaves is the one `fetchPosts` / `fetchMessages` computes from the re-fetch
outcome alone: the write response (its `notification` field) has no influence on it, and
a fetched array becomes the collection as it is. A write is issued for a post draft, a
comment text or a chat message that is not blank; approve, block and delete, like the
comment, act on an arbitrary home page `g`, whatever its post draft holds. -/
theorem write_then_refetch (user u : String) (t now postId : Nat)
    (n n2 : Option String) (rf : Fetched Post) (rc : Fetched ChatMessage)
    (commentText : String) (h g : HomeState) (c : ChatState) (a : AppState)
    (hpost : ∃ ch ∈ h.newPostText.data, isJsWhiteSpace ch = false)
    (hcomment : ∃ ch ∈ commentText.data, isJsWhiteSpace ch = false)
    (hmsg : ∃ ch ∈ c.newMessage.data, isJsWhiteSpace ch = false)
    (hu : u ≠ "") :
    (callsOf (handleCreatePost user t now (WriteResult.body n) rf h a).2.2 =
        [ApiCall.createPost user h.newPostText none, ApiCall.getPosts] ∧
      (handleCreatePost user t now (WriteResult.body n) rf h a).1.posts =
        (fetchPosts rf h).1.posts ∧
      (handleCreatePost user t now (WriteResult.body n) rf h a).1.posts =
        (handleCreatePost user t now (WriteResult.body n2) rf h a).1.posts) ∧
    (callsOf (handleAddComment user t now (WriteResult.body n) rf postId commentText g a).2.2 =
        [ApiCall.createPost user commentText (some postId), ApiCall.getPosts] ∧
      (handleAddComment user t now (WriteResult.body n) rf postId commentText g a).1.posts =
        (fetchPosts rf g).1.posts ∧
      (handleAddComment user t now (WriteResult.body n) rf postId commentText g a).1.posts =
        (handleAddComment user t now (WriteResult.body n2) rf postId commentText g a).1.posts) ∧
    (callsOf (handleApprove PlainResult.resolved rf postId g).2 =
        [ApiCall.approvePost postId, ApiCall.getPosts] ∧
      (handleApprove PlainResult.resolved rf postId g).1 = (fetchPosts rf g).1) ∧
    (callsOf (handleBlock PlainResult.resolved rf postId g).2 =
        [ApiCall.blockPost postId, ApiCall.getPosts] ∧
      (handleBlock PlainResult.resolved rf postId g).1 = (fetchPosts rf g).1) ∧
    (callsOf (handleDelete user t now PlainResult.resolved rf postId g a).2.2 =
        [ApiCall.deletePost postId, ApiCall.getPosts] ∧
      (handleDelete user t now PlainResult.resolved rf postId g a).1 = (fetchPosts rf g).1) ∧
    (callsOf (handleSendMessage (some u) t now (WriteResult.body n) rc c a).2.2 =
        [ApiCall.sendMessage (some u) activeUser c.newMessage, ApiCall.getMessages u] ∧
      (handleSendMessage (some u) t now (WriteResult.body n) rc c a).1.messages =
        (fetchMessages (some u) rc c).1.messages ∧
      (handleSendMessage (some u) t now (WriteResult.body n) rc c a).1.messages =
        (handleSendMessage (some u) t now (WriteResult.body n2) rc c a).1.messages) ∧
    (∀ A, (handleCreatePost user t now (WriteResult.body n) (Fetched.array A) h a).1.posts = A ∧
      (handleAddComment user t now (WriteResult.body n) (Fetched.array A) postId commentText
        g a).1.posts = A ∧
      (handleApprove PlainResult.resolved (Fetched.array A) postId g).1.posts = A ∧
      (handleBlock PlainResult.resolved (Fetched.array A) postId g).1.posts = A ∧
      (handleDelete user t now PlainResult.resolved (Fetched.array A) postId g a).1.posts = A) ∧
    (∀ B, (handleSendMessage (some u) t now (WriteResult.body n) (Fetched.array B)
      c a).1.messages = B) := by
  have hg1 := jsNot_jsTrim_false _ hpost
  have hg2 := jsNot_jsTrim_false _ hcomment
  have hg3 := jsNot_jsTrim_false _ hmsg
  have hc0 : jsNot commentText = false := by
    rw [Bool.eq_false_iff, Ne, jsNot_iff]
    rintro rfl
    obtain ⟨ch, hch, -⟩ := hcomment
    simp at hch
  have hn : jsNot u = false := by
    rw [Bool.eq_false_iff, Ne, jsNot_iff]
    exact hu
  refine ⟨?_, ?_, ?_, ?_, ?_, ?_, ?_, ?_⟩
  · cases rf <;> simp [handleCreatePost, hg1, callsOf, fetchPosts]
  · cases rf <;> simp [handleAddComment, hg2, hc0, callsOf, fetchPosts]
  · cases rf <;> simp [handleApprove, callsOf, fetchPosts]
  · cases rf <;> simp [handleBlock, callsOf, fetchPosts]
  · cases rf <;> simp [handleDelete, callsOf, fetchPosts]
  · cases rc <;> simp [handleSendMessage, hg3, callsOf, fetchMessages, hn]
  · intro A
    simp [handleCreatePost, handleAddComment, handleApprove, handleBlock, handleDelete,
      hg1, hg2, hc0, fetchPosts]
  · intro B
    simp [handleSendMessage, hg3, fetchMessages, hn]

/-- Witness for C17: `alice` sends `hello` and the re-fetch returns the thread with it,
while the send response carries nothing; and a post is approved from a home page whose
new-post draft is empty. -/
theorem write_then_refetch_witness :
    (∃ ch ∈ "hello".data, isJsWhiteSpace ch = false) ∧ "alice" ≠ "" ∧
    sampleHomeIdle.newPostText = "" ∧
    callsOf (handleSendMessage (some "alice") 0 0 (WriteResult.body none)
      (Fetched.array [{ user := "alice", text := "hello" }])
      { sampleChat with newMessage := "hello" } AppState.initial).2.2 =
      [ApiCall.sendMessage (some "alice") activeUser "hello", ApiCall.getMessages "alice"] ∧
    (handleSendMessage (some "alice") 0 0 (WriteResult.body none)
      (Fetched.array [{ user := "alice", text := "hello" }])
      { sampleChat with newMessage := "hello" } AppState.initial).1.messages =
      [{ user := "alice", text := "hello" }] ∧
    callsOf (handleApprove PlainResult.resolved (Fetched.array []) 7 sampleHomeIdle).2 =
      [ApiCall.approvePost 7, ApiCall.getPosts] :=
  ⟨⟨'h', by decide, by decide⟩, by decide, rfl,
   (write_then_refetch "alice" "alice" 0 0 7 none none (Fetched.array [])
      (Fetched.array [{ user := "alice", text := "hello" }]) "nice"
      { sampleHome with newPostText := "hello" } sampleHomeIdle
      { sampleChat with newMessage := "hello" }
      AppState.initial ⟨'h', by decide, by decide⟩ ⟨'n', by decide, by decide⟩
      ⟨'h', by decide, by decide⟩ (by decide)).2.2.2.2.2.1.1,
   (write_then_refetch "alice" "alice" 0 0 7 none none (Fetched.array [])
      (Fetched.array [{ user := "alice", text := "hello" }]) "nice"
      { sampleHome with newPostText := "hello" } sampleHomeIdle
      { sampleChat with newMessage := "hello" }
      AppState.initial ⟨'h', by decide, by decide⟩ ⟨'n', by decide, by decide⟩
      ⟨'h', by decide, by decide⟩ (by decide)).2.2.2.2.2.2.2 _,
   (write_then_refetch "alice" "alice" 0 0 7 none none (Fetched.array [])
      (Fetched.array [{ user := "alice", text := "hello" }]) "nice"
      { sampleHome with newPostText := "hello" } sampleHomeIdle
      { sampleChat with newMessage := "hello" }
      AppState.initial ⟨'h', by decide, by decide⟩ ⟨'n', by decide, by decide⟩
      ⟨'h', by decide, by decide⟩ (by decide)).2.2.1.1⟩

/-- C19: `fetchMessages` leaves the messages list (the whole panel state) as it was when
the fetch is rejected, when the response is not an array, and when `currentUser` is unset
(null or the empty string), in which last case it issues no API call. -/
theorem fetchMessages_keeps_on_failure (currentUser : Option String)
    (r : Fetched ChatMessage) (c : ChatState) :
    (fetchMessages currentUser Fetched.rejected c).1.messages = c.messages ∧
    (fetchMessages currentUser Fetched.notArray c).1.messages = c.messages ∧
    (fetchMessages none r c).1.messages = c.messages ∧
    (fetchMessages (some "") r c).1.messages = c.messages ∧
    callsOf (fetchMessages none r c).2 = [] ∧
    callsOf (fetchMessages (some "") r c).2 = [] ∧
    (fetchMessages none r c).2 = [] ∧
    (fetchMessages (some "") r c).2 = [] := by
  refine ⟨?_, ?_, rfl, rfl, rfl, rfl, rfl, rfl⟩
  · cases currentUser with
    | none => rfl
    | some u =>
      unfold fetchMessages
      by_cases hu : jsNot u = true <;> simp [hu]
  · cases currentUser with
    | none => rfl
    | some u =>
      unfold fetchMessages
      by_cases hu : jsNot u = true <;> simp [hu]

/-- The fetch times of a poll with a positive period, activated at `t0` and observed at
`T`: `t0`, `t0 + period`, `t0 + 2 * period`, ... up to `T`. -/
theorem poll_fetchTimes (period t0 T : Nat) (hperiod : 0 < period) (h : t0 ≤ T) :
    (pollAdvance period T (pollActivate period t0 PollState.initial)).fetchTimes =
      (List.range ((T - t0) / period + 1)).map (fun k => t0 + k * period) := by
  unfold pollAdvance pollActivate PollState.initial
  simp only [List.nil_append]
  by_cases hdue : t0 + period ≤ T
  · rw [if_pos hdue]
    have hdiv : (T - t0) / period = (T - (t0 + period)) / period + 1 := by
      have hsplit : T - t0 = (T - (t0 + period)) + period := by omega
      rw [hsplit, Nat.add_div_right _ hperiod]
    rw [hdiv, List.range_succ_eq_map ((T - (t0 + period)) / period + 1)]
    simp only [List.map_cons, List.map_map, Nat.zero_mul, Nat.add_zero, List.singleton_append]
    congr 1
    apply List.map_congr_left
    intro k _
    simp only [Function.comp_apply, Nat.succ_eq_add_one]
    rw [Nat.add_mul]
    omega
  · rw [if_neg hdue]
    have hlt : T - t0 < period := by omega
    rw [Nat.div_eq_of_lt hlt]
    simp [List.range_succ]

/-- After `clearInterval` no amount of waiting adds a fetch. -/
theorem poll_teardown_silent (period T : Nat) (s : PollState) :
    pollAdvance period T (pollTeardown s) = pollTeardown s := by
  rfl

/-- C18: a poll-driven view activated at `t0` and still active at `T` has invoked its fetch
function at `t0` and then once every period (5000 ms for posts, 3000 ms for chat), that is
at the times `t0 + k * period` up to `T` and at no other time; once it is torn down at
`T`, waiting until any time `T2` adds no fetch. -/
theorem poll_schedule (t0 T T2 : Nat) (h : t0 ≤ T) :
    ((pollAdvance postsPollPeriod T (pollActivate postsPollPeriod t0 PollState.initial)).fetchTimes
        = (List.range ((T - t0) / 5000 + 1)).map (fun k => t0 + k * 5000) ∧
      (pollAdvance postsPollPeriod T
        (pollActivate postsPollPeriod t0 PollState.initial)).fetchTimes.head? = some t0 ∧
      (pollAdvance postsPollPeriod T2 (pollTeardown (pollAdvance postsPollPeriod T
        (pollActivate postsPollPeriod t0 PollState.initial)))).fetchTimes =
      (pollAdvance postsPollPeriod T
        (pollActivate postsPollPeriod t0 PollState.initial)).fetchTimes) ∧
    ((pollAdvance chatPollPeriod T (pollActivate chatPollPeriod t0 PollState.initial)).fetchTimes
        = (List.range ((T - t0) / 3000 + 1)).map (fun k => t0 + k * 3000) ∧
      (pollAdvance chatPollPeriod T
        (pollActivate chatPollPeriod t0 PollState.initial)).fetchTimes.head? = some t0 ∧
      (pollAdvance chatPollPeriod T2 (pollTeardown (pollAdvance chatPollPeriod T
        (pollActivate chatPollPeriod t0 PollState.initial)))).fetchTimes =
      (pollAdvance chatPollPeriod T
        (pollActivate chatPollPeriod t0 PollState.initial)).fetchTimes) := by
  have hp := poll_fetchTimes postsPollPeriod t0 T (by decide) h
  have hc := poll_fetchTimes chatPollPeriod t0 T (by decide) h
  refine ⟨⟨hp, ?_, ?_⟩, ⟨hc, ?_, ?_⟩⟩
  · rw [hp, List.range_succ_eq_map]
    simp
  · rw [poll_teardown_silent]
    rfl
  · rw [hc, List.range_succ_eq_map]
    simp
  · rw [poll_teardown_silent]
    rfl

/-- Witness for C18: a home page mounted at time 100 and observed at time 12000 has
fetched at 100, 5100 and 10100; a chat panel has fetched at 100, 3100, 6100 and 9100. -/
theorem poll_schedule_witness :
    100 ≤ 12000 ∧
    (pollAdvance postsPollPeriod 12000
      (pollActivate postsPollPeriod 100 PollState.initial)).fetchTimes = [100, 5100, 10100] ∧
    (pollAdvance chatPollPeriod 12000
      (pollActivate chatPollPeriod 100 PollState.initial)).fetchTimes =
        [100, 3100, 6100, 9100] :=
  ⟨by decide,
   (poll_schedule 100 12000 20000 (by decide)).1.1.trans (by decide),
   (poll_schedule 100 12000 20000 (by decide)).2.1.trans (by decide)⟩

/-- Removing the first occurrence of `pat` from `pat ++ l` gives `l`, also when `l`
contains `pat` again. -/
theorem replaceFirstChars_append (pat l : List Char) :
    replaceFirstChars pat [] (pat ++ l) = l := by
  cases hpl : pat ++ l with
  | nil =>
    have hl : l = [] := (List.append_eq_nil.mp hpl).2
    simp [replaceFirstChars, hl]
  | cons c cs =>
    have hpre : pat.isPrefixOf (c :: cs) = true := by
      rw [List.isPrefixOf_iff_prefix, ← hpl]
      exact List.prefix_append pat l
    unfold replaceFirstChars
    rw [if_pos hpre, ← hpl, List.drop_left]
    rfl

/-- Stripping the base URL undoes prepending it. -/
theorem jsReplace_base (path : String) :
    jsReplace (API_BASE_URL ++ path) API_BASE_URL "" = path := by
  unfold jsReplace
  rw [String.data_append]
  show String.mk (replaceFirstChars API_BASE_URL.data [] (API_BASE_URL.data ++ path.data)) = path
  rw [replaceFirstChars_append]

/-- C20: when the server returns the non-empty relative path `path`, the profile state
holds `API_BASE_URL` followed by `path`; a save with no selected file then sends
`profile_image_url` equal to `path` exactly, because stripping the first occurrence of the
base URL undoes prepending it (also when `path` itself contains the base URL); and a
save with no stored image and no selected file sends null. -/
theorem image_reference_round_trip (user : String) (p q : ProfileState) (data : ProfileBody)
    (path : String) (upload : UploadResult) (update : ProfileResult)
    (hpath : data.profile_image_url = some path) (hne : path ≠ "")
    (hsel : p.selectedFile = none) (hq : q.profileImageUrl = none)
    (hqsel : q.selectedFile = none) :
    (fetchProfileData user (ProfileResult.body data) p).1.profileImageUrl =
      some (API_BASE_URL ++ path) ∧
    jsReplace (API_BASE_URL ++ path) API_BASE_URL "" = path ∧
    callsOf (handleSave user upload update (fetchProfileData user (ProfileResult.body data) p).1).2 =
      [ApiCall.updateProfile user (some (jsOrEmpty data.bio)) (some path)] ∧
    callsOf (handleSave user upload update q).2 = [ApiCall.updateProfile user q.bio none] := by
  have hn : jsNot path = false := by
    rw [Bool.eq_false_iff, Ne, jsNot_iff]
    exact hne
  have hbase : jsNot (API_BASE_URL ++ path) = false := by
    rw [Bool.eq_false_iff, Ne, jsNot_iff]
    intro h
    have := congrArg String.length h
    simp only [API_BASE_URL, String.length_append] at this
    have hlen : "http://127.0.0.1:8000".length = 21 := by decide
    have hzero : "".length = 0 := rfl
    omega
  refine ⟨?_, jsReplace_base path, ?_, ?_⟩
  · simp [fetchProfileData, hpath, hn]
  · have hstep : uploadStep user upload (fetchProfileData user (ProfileResult.body data) p).1 =
        (some (some path), []) := by
      simp [uploadStep, fetchProfileData, hsel, existingImageUrl, hpath, hn, hbase,
        jsReplace_base]
    have hbio : (fetchProfileData user (ProfileResult.body data) p).1.bio =
        some (jsOrEmpty data.bio) := rfl
    cases update <;> simp [handleSave, hstep, callsOf, hbio]
  · have hstep : uploadStep user upload q = (some none, []) := by
      simp [uploadStep, hqsel, existingImageUrl, hq]
    cases update <;> simp [handleSave, hstep, callsOf]

/-- Witness for C20: the path `/static/http://127.0.0.1:8000/a.png`, which contains the
base URL again, comes back unchanged. -/
theorem image_reference_round_trip_witness :
    "/static/http://127.0.0.1:8000/a.png" ≠ "" ∧
    callsOf (handleSave "alice" UploadResult.rejected ProfileResult.rejected
      (fetchProfileData "alice"
        (ProfileResult.body { sampleSaved with
          profile_image_url := some "/static/http://127.0.0.1:8000/a.png" })
        ProfileState.initial).1).2 =
      [ApiCall.updateProfile "alice" (some "hello")
        (some "/static/http://127.0.0.1:8000/a.png")] :=
  ⟨by decide,
   (image_reference_round_trip "alice" ProfileState.initial ProfileState.initial
      { sampleSaved with profile_image_url := some "/static/http://127.0.0.1:8000/a.png" }
      "/static/http://127.0.0.1:8000/a.png" UploadResult.rejected ProfileResult.rejected
      rfl (by decide) rfl rfl rfl).2.2.1⟩

/-- An `update_profile` call is among the calls of an effect list exactly when it is
among its effects. -/
theorem updateCalls_def (fx : List Effect) (user : String) (bio url : Option String) :
    ApiCall.updateProfile user bio url ∈ callsOf fx ↔
      Effect.call (ApiCall.updateProfile user bio url) ∈ fx := by
  unfold callsOf
  rw [List.mem_filterMap]
  constructor
  · rintro ⟨e, he, hsome⟩
    cases e <;> simp at hsome
    subst hsome
    exact he
  · intro h
    exact ⟨_, h, rfl⟩

/-- C21: a save with a selected file whose upload response has no `file_url`, or an empty
one, issues the upload call and nothing else: no `update_profile` call with any payload;
`bio`, `profileImageUrl`, `profileImagePreview` and `selectedFile` (the whole page state)
stay as they were; `onNavigateHome` is not invoked; and the one alert shown is
`Error: Could not save profile.`. -/
theorem handleSave_upload_without_url (user file : String) (file_url : Option String)
    (update : ProfileResult) (p : ProfileState) (hfile : p.selectedFile = some file)
    (hurl : file_url = none ∨ file_url = some "") :
    callsOf (handleSave user (UploadResult.body file_url) update p).2 =
      [ApiCall.uploadImage user file] ∧
    (∀ u b url, ApiCall.updateProfile u b url ∉
      callsOf (handleSave user (UploadResult.body file_url) update p).2) ∧
    (handleSave user (UploadResult.body file_url) update p).1.bio = p.bio ∧
    (handleSave user (UploadResult.body file_url) update p).1.profileImageUrl =
      p.profileImageUrl ∧
    (handleSave user (UploadResult.body file_url) update p).1.profileImagePreview =
      p.profileImagePreview ∧
    (handleSave user (UploadResult.body file_url) update p).1.selectedFile = p.selectedFile ∧
    (handleSave user (UploadResult.body file_url) update p).1 = p ∧
    Effect.onNavigateHome ∉ (handleSave user (UploadResult.body file_url) update p).2 ∧
    alertsOf (handleSave user (UploadResult.body file_url) update p).2 =
      ["Error: Could not save profile."] := by
  have hstep : uploadStep user (UploadResult.body file_url) p =
      (none, [Effect.call (ApiCall.uploadImage user file)]) := by
    rcases hurl with h | h
    · simp [uploadStep, hfile, h]
    · simp [uploadStep, hfile, h, jsNot]
  have hsave : handleSave user (UploadResult.body file_url) update p =
      (p, [Effect.call (ApiCall.uploadImage user file),
           Effect.consoleError "Failed to save profile:",
           Effect.alert "Error: Could not save profile."]) := by
    simp [handleSave, hstep]
  rw [hsave]
  refine ⟨by simp [callsOf], ?_, rfl, rfl, rfl, rfl, rfl, by simp, by simp [alertsOf]⟩
  intro u b url
  rw [updateCalls_def]
  simp

/-- Witness for C21: `new.png` is selected and the upload answers with an empty
`file_url`, then with none at all. -/
theorem handleSave_upload_without_url_witness :
    sampleProfile.selectedFile = some "new.png" ∧
    (handleSave "alice" (UploadResult.body (some "")) (ProfileResult.body sampleSaved)
      sampleProfile).1 = sampleProfile ∧
    alertsOf (handleSave "alice" (UploadResult.body none) (ProfileResult.body sampleSaved)
      sampleProfile).2 = ["Error: Could not save profile."] :=
  ⟨rfl,
   (handleSave_upload_without_url "alice" "new.png" (some "") (ProfileResult.body sampleSaved)
      sampleProfile rfl (Or.inr rfl)).2.2.2.2.2.2.1,
   (handleSave_upload_without_url "alice" "new.png" none (ProfileResult.body sampleSaved)
      sampleProfile rfl (Or.inl rfl)).2.2.2.2.2.2.2.2⟩

/-- C22: on every card the displayed comment count is the length of the full fetched
comments list, 0 when the list is absent, and not the number of comments shown: it is the
number of comments shown plus the number of blocked comments. -/
theorem comment_count_includes_blocked (posts : List Post) (post : Post) :
    displayedCommentCount post = (post.comments.getD []).length ∧
    (post.comments = none → displayedCommentCount post = 0) ∧
    displayedCommentCount post =
      (renderedComments post).length +
        (post.comments.getD []).countP (fun c => c.status == "blocked") ∧
    (∀ card ∈ renderFeed posts,
      displayedCommentCount card.post =
        card.comments.length +
          (card.post.comments.getD []).countP (fun c => c.status == "blocked")) := by
  have hsplit : ∀ q : Post, displayedCommentCount q =
      (renderedComments q).length +
        (q.comments.getD []).countP (fun c => c.status == "blocked") := by
    intro q
    unfold displayedCommentCount renderedComments
    cases q.comments with
    | none => rfl
    | some cs =>
      simp only [Option.getD_some]
      rw [← List.countP_eq_length_filter,
        List.length_eq_countP_add_countP (fun c : Comment => c.status == "blocked") cs,
        Nat.add_comm]
      congr 1
      apply List.countP_congr
      intro c _
      simp [bne]
  refine ⟨?_, ?_, hsplit post, ?_⟩
  · unfold displayedCommentCount
    cases post.comments <;> rfl
  · intro h
    simp [displayedCommentCount, h]
  · intro card hcard
    obtain ⟨q, -, rfl⟩ := List.mem_map.mp hcard
    exact hsplit q

/-- Witness for C22: `samplePost` has two comments, one of them blocked: the count shown
is 2 while one comment is rendered. -/
theorem comment_count_includes_blocked_witness :
    displayedCommentCount samplePost = 2 ∧ (renderedComments samplePost).length = 1 ∧
    displayedCommentCount samplePost = (renderedComments samplePost).length + 1 :=
  ⟨(comment_count_includes_blocked [samplePost] samplePost).1.trans (by decide), by decide,
   (comment_count_includes_blocked [samplePost] samplePost).2.2.1.trans (by decide)⟩

end SafeChat
